import Mathlib

/-!
Shallow embedding of `src/tools/trace-parser/trace-tools/src/bin/trace-dump.rs`,
the trace-dump orchestration pipeline: the timestamp-uniquifying closure, the
command dispatch over the four transformation pipelines, the error-report
artifact, and the exit-code mapping.
-/

namespace TraceDump

/-- Modelled from the spec: `traceevent::header::Timestamp` is defined in the
external `traceevent` crate, not in this source file; the spec treats timestamps
as nonnegative "time units", so they are modelled as natural numbers. -/
abbrev Timestamp := Nat

/-- One call of the stateful closure `make_unique_timestamps`:
`prev = std::cmp::max(ts, prev + 2); prev`.  The first component is the value
returned (the emitted timestamp), the second the updated captured state. -/
def make_unique_timestamps (prev : Timestamp) (ts : Timestamp) : Timestamp × Timestamp :=
  let prev := max ts (prev + 2)
  (prev, prev)

/-- The initial captured state of the closure: `let mut prev = 0;`. -/
def make_unique_timestamps_init : Timestamp := 0

/-- The timestamp transform handed to the columnar writer (`make_ts` in the
Parquet arm of `_main`): the uniquifying closure when `--unique-timestamps` is
given, otherwise the identity closure `|ts| ts` (which leaves the state alone). -/
def make_ts (unique_timestamps : Bool) (prev : Timestamp) (ts : Timestamp) :
    Timestamp × Timestamp :=
  if unique_timestamps then make_unique_timestamps prev ts
  else (ts, prev)

/-- Feeding a list of input timestamps, one by one, through the uniquifying
closure starting from state `prev`, collecting the emitted outputs. -/
def runUnique (prev : Timestamp) : List Timestamp → List Timestamp
  | [] => []
  | t :: ts =>
    (make_unique_timestamps prev t).1 :: runUnique (make_unique_timestamps prev t).2 ts

lemma make_unique_timestamps_fst (prev t : Timestamp) :
    (make_unique_timestamps prev t).1 = max t (prev + 2) := rfl

lemma make_unique_timestamps_snd (prev t : Timestamp) :
    (make_unique_timestamps prev t).2 = max t (prev + 2) := rfl

lemma runUnique_cons (prev t : Timestamp) (ts : List Timestamp) :
    runUnique prev (t :: ts) = max t (prev + 2) :: runUnique (max t (prev + 2)) ts := rfl

/-- Every output of the closure is at least `prev + 2` where `prev` is the state
before the whole run. -/
lemma mem_runUnique_ge (prev : Timestamp) (l : List Timestamp) :
    ∀ x ∈ runUnique prev l, prev + 2 ≤ x := by
  induction l generalizing prev with
  | nil => simp [runUnique]
  | cons t ts ih =>
    intro x hx
    rw [runUnique_cons] at hx
    rcases List.mem_cons.mp hx with rfl | hx
    · exact le_max_right _ _
    · have h1 : prev + 2 ≤ max t (prev + 2) + 2 :=
        le_trans (le_max_right _ _) (Nat.le_add_right _ _)
      exact le_trans h1 (ih (max t (prev + 2)) x hx)

/-- Consecutive outputs of the closure always differ by at least 2. -/
lemma runUnique_chain_ge (prev : Timestamp) (l : List Timestamp) :
    (runUnique prev l).Chain' (fun a b => a + 2 ≤ b) := by
  induction l generalizing prev with
  | nil => simp [runUnique]
  | cons t ts ih =>
    rw [runUnique_cons]
    refine List.chain'_cons'.mpr ⟨?_, ih _⟩
    intro y hy
    exact mem_runUnique_ge _ ts y (List.mem_of_mem_head? hy)

/-- The outputs of the closure are strictly increasing. -/
lemma runUnique_chain_lt (prev : Timestamp) (l : List Timestamp) :
    (runUnique prev l).Chain' (· < ·) := by
  refine (runUnique_chain_ge prev l).imp ?_
  intro a b h
  exact lt_of_lt_of_le (Nat.lt_add_of_pos_right (by norm_num)) h

/-- Claim C1: for every non-decreasing sequence of input timestamps fed to the
closure used when `--unique-timestamps` is given (starting from its initial
state 0), the output sequence is strictly increasing and consecutive outputs
differ by at least 2 time units; moreover that closure is exactly what `make_ts`
selects when uniqueness is requested. -/
theorem C1_unique_timestamps_strictly_increasing (l : List Timestamp)
    (h : l.Chain' (· ≤ ·)) :
    (runUnique make_unique_timestamps_init l).Chain' (· < ·) ∧
    (runUnique make_unique_timestamps_init l).Chain' (fun a b => a + 2 ≤ b) ∧
    (∀ prev ts, make_ts true prev ts = make_unique_timestamps prev ts) :=
  ⟨runUnique_chain_lt _ l, runUnique_chain_ge _ l, fun _ _ => rfl⟩

/-- Witness for C1 at the concrete non-decreasing input `[100, 100, 105]`. -/
theorem C1_witness :
    ([100, 100, 105] : List Timestamp).Chain' (· ≤ ·) ∧
    ((runUnique make_unique_timestamps_init [100, 100, 105]).Chain' (· < ·) ∧
      (runUnique make_unique_timestamps_init [100, 100, 105]).Chain'
        (fun a b => a + 2 ≤ b) ∧
      (∀ prev ts, make_ts true prev ts = make_unique_timestamps prev ts)) :=
  ⟨by simp [List.chain'_cons],
    C1_unique_timestamps_strictly_increasing [100, 100, 105] (by simp [List.chain'_cons])⟩

/-- Claim C2: each call of the closure on input `t` with state `prev` returns
`max t (prev + 2)` and updates the state to that same returned value; on the
input sequence `[100, 100, 105]` (from the initial state) the outputs are
`[100, 102, 105]`. -/
theorem C2_step_equation_and_example :
    (∀ prev t : Timestamp,
      make_unique_timestamps prev t = (max t (prev + 2), max t (prev + 2))) ∧
    runUnique make_unique_timestamps_init [100, 100, 105] = [100, 102, 105] :=
  ⟨fun _ _ => rfl, by decide⟩

/-- Claim C9: for every input sequence, including decreasing ones, the outputs
(from the initial state) are strictly increasing with consecutive differences of
at least 2; an input strictly below the previous output is clamped to the
previous output plus 2. -/
theorem C9_no_backward_time_travel (l : List Timestamp) (prev t : Timestamp)
    (hdec : t < prev) :
    (runUnique make_unique_timestamps_init l).Chain' (· < ·) ∧
    (runUnique make_unique_timestamps_init l).Chain' (fun a b => a + 2 ≤ b) ∧
    (make_unique_timestamps prev t).1 = prev + 2 := by
  refine ⟨runUnique_chain_lt _ l, runUnique_chain_ge _ l, ?_⟩
  rw [make_unique_timestamps_fst]
  exact max_eq_right (le_of_lt (lt_trans hdec (Nat.lt_add_of_pos_right (by norm_num))))

/-- Witness for C9 at the decreasing input list `[5, 3, 1]` and the decreasing
step `prev = 5`, `t = 3`. -/
theorem C9_witness :
    (3 : Timestamp) < 5 ∧
    ((runUnique make_unique_timestamps_init [5, 3, 1]).Chain' (· < ·) ∧
      (runUnique make_unique_timestamps_init [5, 3, 1]).Chain' (fun a b => a + 2 ≤ b) ∧
      (make_unique_timestamps 5 3).1 = 5 + 2) :=
  ⟨by decide, C9_no_backward_time_travel [5, 3, 1] 5 3 (by decide)⟩

/-- Claim C10: the closure state starts at 0, so the first output is
`max t 2`; every output of any run from the initial state is at least 2; and the
distinct first inputs 0 and 1 are both mapped to 2. -/
theorem C10_initial_state (t : Timestamp) (l : List Timestamp) (x : Timestamp)
    (hx : x ∈ runUnique make_unique_timestamps_init l) :
    make_unique_timestamps_init = 0 ∧
    (make_unique_timestamps make_unique_timestamps_init t).1 = max t 2 ∧
    2 ≤ x ∧
    runUnique make_unique_timestamps_init [0] = [2] ∧
    runUnique make_unique_timestamps_init [1] = [2] :=
  ⟨rfl, rfl, mem_runUnique_ge 0 l x hx, rfl, rfl⟩

/-- Witness for C10 at the run on `[0]`, whose only output is 2. -/
theorem C10_witness :
    (2 : Timestamp) ∈ runUnique make_unique_timestamps_init [0] ∧
    (make_unique_timestamps_init = 0 ∧
      (make_unique_timestamps make_unique_timestamps_init 7).1 = max 7 2 ∧
      (2 : Timestamp) ≤ 2 ∧
      runUnique make_unique_timestamps_init [0] = [2] ∧
      runUnique make_unique_timestamps_init [1] = [2]) :=
  ⟨by decide, C10_initial_state 7 [0] 2 (by decide)⟩

/-- The `--compression` CLI value enum (`ParquetCompression` in the source). -/
inductive ParquetCompression
  | lz4
  | snappy
  | zstd
deriving DecidableEq

/-- The `arrow2` `CompressionOptions` enum is external; only the variants the
source names are modelled.  `Zstd` carries an optional level (the source passes
`Zstd(None)`), modelled as an optional natural number. -/
inductive CompressionOptions
  | Uncompressed
  | Snappy
  | Lz4
  | Zstd (level : Option Nat)
deriving DecidableEq

/-- The `match compression` expression of the Parquet arm of `_main`. -/
def compressionOf : Option ParquetCompression → CompressionOptions
  | some .snappy => .Snappy
  | some .zstd => .Zstd none
  | some .lz4 => .Lz4
  | none => .Uncompressed

/-- The `Command` subcommand enum, with each variant carrying its parsed
arguments (`chunk_size` already resolved by clap, see `resolveChunkSize`). -/
inductive Command
  | humanReadable (trace : String) (raw : Bool)
  | parquet (trace : String) (events : Option (List String))
      (unique_timestamps : Bool) (compression : Option ParquetCompression)
      (chunk_size : Nat)
  | checkHeader (trace : String)
  | metadata (trace : String)
deriving DecidableEq

/-- Clap resolution of the `--chunk-size` argument: the source declares
`#[arg(long, default_value_t = 64 * 1024)]`, so an absent argument resolves to
`64 * 1024` rows. -/
def resolveChunkSize (arg : Option Nat) : Nat :=
  match arg with
  | some n => n
  | none => 64 * 1024

/-- The `--trace` path of whichever subcommand was given. -/
def Command.tracePath : Command → String
  | .humanReadable t _ => t
  | .parquet t _ _ _ _ => t
  | .checkHeader t => t
  | .metadata t => t

/-- Modelled from the spec: the error value returned by the collaborator
pipelines (defined in the external lib crate) displays a top-level description
and exposes the ordered list of its sub-error descriptions via an accessor
(`.errors()`). -/
structure MultiError where
  top : String
  errors : List String
deriving DecidableEq

/-- The result a pipeline hands back to `_main` (`Result<(), E>` with a
multi-error `E`). -/
inductive PipeResult
  | ok
  | error (e : MultiError)
deriving DecidableEq

/-- The final result of `_main` (`Result<(), Box<dyn Error>>`), with errors
reduced to their display strings. -/
inductive MainResult
  | ok
  | error (msg : String)
deriving DecidableEq

/-- Whether a `MainResult` is a success. -/
def MainResult.isOk : MainResult → Bool
  | .ok => true
  | .error _ => false

/-- Success or failure of each fallible I/O step `_main` performs itself:
opening/mapping the trace and parsing its header (`open_trace`), flushing the
buffered stdout writer, creating the errors-JSON file, and writing to it. -/
structure IoEnv where
  openOk : Bool
  flushOk : Bool
  createOk : Bool
  writeOk : Bool
deriving DecidableEq

/-- The value `serde_json::json!({"errors": errors})`, modelled as the list of
fields of the JSON object: a single field named "errors" holding the ordered
list of error strings. -/
def errorsJsonDoc (errors : List String) : List (String × List String) :=
  [("errors", errors)]

/-- The observable steps `_main` performs, in order.  Each pipeline-call action
records the arguments the source passes, and `usesOut` records whether the call
receives the shared buffered stdout writer `&mut out`. -/
inductive Action
  | mkBufWriter (capacity : Nat)
  | openTrace (path : String)
  | callPrintEvents (raw : Bool) (usesOut : Bool)
  | callDumpEvents (unique_timestamps : Bool) (events : Option (List String))
      (chunk_size : Nat) (compression : CompressionOptions) (usesOut : Bool)
  | callCheckHeader (usesOut : Bool)
  | callDumpHeaderMetadata (usesOut : Bool)
  | flushOut
  | eprintLine (msg : String)
  | writeErrorsJson (path : String) (doc : List (String × List String))
deriving DecidableEq

/-- What `_main` produced: its ordered action trace and its returned result. -/
structure MainState where
  actions : List Action
  result : MainResult
deriving DecidableEq

/-- The error list serialized into the artifact: the sub-errors of a failed
result, the empty list for a success. -/
def resErrors : PipeResult → List String
  | .error err => err.errors
  | .ok => []

/-- Everything `_main` does once the selected pipeline has returned `res`:
`out.flush()?`, the diagnostic line on failure, the optional errors-JSON
artifact, and the final mapping of `res` to the function result. -/
def afterPipeline (acts : List Action) (errors_json : Option String)
    (env : IoEnv) (res : PipeResult) : MainState :=
  let acts := acts ++ [Action.flushOut]
  if env.flushOk = false then ⟨acts, .error "flush error"⟩ else
  let acts :=
    match res with
    | .error err =>
        acts ++ [.eprintLine ("Errors happened while processing the trace: " ++ err.top)]
    | .ok => acts
  match errors_json with
  | some path =>
    if env.createOk = false then ⟨acts, .error "create error"⟩ else
    let acts := acts ++ [.writeErrorsJson path (errorsJsonDoc (resErrors res))]
    if env.writeOk = false then ⟨acts, .error "write error"⟩ else
    ⟨acts, match res with | .ok => .ok | .error _ => .error "Errors happened"⟩
  | none =>
    ⟨acts, match res with | .ok => .ok | .error _ => .error "Errors happened"⟩

/-- The body of `_main` after CLI parsing: build the 1 MiB buffered writer over
locked stdout, dispatch on the subcommand (each arm opening the trace with
`open_trace(trace)?` and then calling its collaborator pipeline), then flush and
report.  The pipeline outcome `res` is supplied by the (external) collaborator. -/
def _main (cmd : Command) (errors_json : Option String) (env : IoEnv)
    (res : PipeResult) : MainState :=
  let acts : List Action := [.mkBufWriter (1024 * 1024)]
  match cmd with
  | .humanReadable trace raw =>
    let acts := acts ++ [.openTrace trace]
    if env.openOk = false then ⟨acts, .error "open error"⟩ else
    afterPipeline (acts ++ [.callPrintEvents raw true]) errors_json env res
  | .parquet trace events unique_timestamps compression chunk_size =>
    let acts := acts ++ [.openTrace trace]
    if env.openOk = false then ⟨acts, .error "open error"⟩ else
    afterPipeline
      (acts ++ [.callDumpEvents unique_timestamps events chunk_size
        (compressionOf compression) false])
      errors_json env res
  | .checkHeader trace =>
    let acts := acts ++ [.openTrace trace]
    if env.openOk = false then ⟨acts, .error "open error"⟩ else
    afterPipeline (acts ++ [.callCheckHeader true]) errors_json env res
  | .metadata trace =>
    let acts := acts ++ [.openTrace trace]
    if env.openOk = false then ⟨acts, .error "open error"⟩ else
    afterPipeline (acts ++ [.callDumpHeaderMetadata true]) errors_json env res

/-- The `main` entry point: run `_main`, print the error on failure, and map the
outcome to the process exit code (`ExitCode::from(1)` on `Err`,
`ExitCode::from(0)` on `Ok`). -/
def main (cmd : Command) (errors_json : Option String) (env : IoEnv)
    (res : PipeResult) : Nat :=
  match (_main cmd errors_json env res).result with
  | .error _ => 1
  | .ok => 0

/-- Recognizes the action of writing the errors-JSON artifact. -/
def Action.isWriteErrorsJson : Action → Bool
  | .writeErrorsJson _ _ => true
  | _ => false

/-- Recognizes a pipeline call made without the shared stdout writer. -/
def Action.isPipelineCallWithoutOut : Action → Bool
  | .callPrintEvents _ u => !u
  | .callDumpEvents _ _ _ _ u => !u
  | .callCheckHeader u => !u
  | .callDumpHeaderMetadata u => !u
  | _ => false

/-- `some u` when the action is one of the four pipeline calls, `u` recording
whether it receives the shared buffered stdout writer; `none` otherwise. -/
def Action.sharedOut : Action → Option Bool
  | .callPrintEvents _ u => some u
  | .callDumpEvents _ _ _ _ u => some u
  | .callCheckHeader u => some u
  | .callDumpHeaderMetadata u => some u
  | _ => none

/-- Error-reporting actions: the diagnostic stderr line and the error artifact. -/
def Action.isReporting : Action → Bool
  | .eprintLine _ => true
  | .writeErrorsJson _ _ => true
  | _ => false

/-- The collaborator call of each dispatch arm, with the arguments the source
passes (note `dump_events` is not handed `&mut out`). -/
def pipeCall : Command → Action
  | .humanReadable _ raw => .callPrintEvents raw true
  | .parquet _ events unique_timestamps compression chunk_size =>
      .callDumpEvents unique_timestamps events chunk_size
        (compressionOf compression) false
  | .checkHeader _ => .callCheckHeader true
  | .metadata _ => .callDumpHeaderMetadata true

/-- Which pipelines write through the shared buffered stdout writer: all but
Parquet. -/
def usesSharedWriter : Command → Bool
  | .parquet _ _ _ _ _ => false
  | _ => true

/-- The actions `_main` performs after the single flush: nothing more if the
flush failed; otherwise the diagnostic line (on pipeline failure) and then the
errors-JSON artifact (when requested and the file could be created). -/
def reportTail (errors_json : Option String) (env : IoEnv) (res : PipeResult) :
    List Action :=
  if env.flushOk = false then [] else
  (match res with
    | .error err =>
        [Action.eprintLine ("Errors happened while processing the trace: " ++ err.top)]
    | .ok => []) ++
  (match errors_json with
    | some path =>
      if env.createOk = false then []
      else [Action.writeErrorsJson path (errorsJsonDoc (resErrors res))]
    | none => [])

lemma afterPipeline_actions (acts : List Action) (ej : Option String)
    (env : IoEnv) (res : PipeResult) :
    (afterPipeline acts ej env res).actions =
      acts ++ [Action.flushOut] ++ reportTail ej env res := by
  unfold afterPipeline reportTail
  cases hf : env.flushOk <;> cases res <;> cases ej <;> cases hc : env.createOk <;>
    cases hw : env.writeOk <;> simp [hf, hc, hw]

lemma reportTail_isReporting (ej : Option String) (env : IoEnv)
    (res : PipeResult) :
    ∀ a ∈ reportTail ej env res, a.isReporting = true := by
  intro a ha
  unfold reportTail at ha
  by_cases hf : env.flushOk = false
  · simp [hf] at ha
  · rw [if_neg hf] at ha
    rcases List.mem_append.mp ha with h1 | h2
    · cases res with
      | ok => simp at h1
      | error e =>
        simp at h1
        subst h1
        rfl
    · cases ej with
      | none => simp at h2
      | some path =>
        by_cases hc : env.createOk = false
        · simp [hc] at h2
        · simp [hc] at h2
          subst h2
          rfl

/-- Claim C3 counterexample: with an error-report path supplied but the trace
failing to open, the invocation fails and yet no errors-JSON artifact is
written, because `open_trace(trace)?` returns from `_main` before the reporting
stage is reached. -/
theorem C3_counterexample :
    ((_main (.metadata "trace.dat") (some "errs.json")
        ⟨false, true, true, true⟩ .ok).actions.all
      fun a => !a.isWriteErrorsJson) = true ∧
    ((_main (.metadata "trace.dat") (some "errs.json")
        ⟨false, true, true, true⟩ .ok).result).isOk = false :=
  ⟨rfl, rfl⟩

/-- Claim C3 as amended: whenever an error-report path is supplied and the run
reaches the reporting stage (the trace opened, the flush succeeded, and the
report file could be created), the program writes to that path a document with
the single field "errors" holding the ordered list of sub-error descriptions,
empty when the pipeline result was a success — whether or not the pipeline
result was a failure. -/
theorem C3_errors_report_written (cmd : Command) (path : String) (env : IoEnv)
    (res : PipeResult) (hopen : env.openOk = true) (hflush : env.flushOk = true)
    (hcreate : env.createOk = true) :
    Action.writeErrorsJson path (errorsJsonDoc (resErrors res)) ∈
      (_main cmd (some path) env res).actions ∧
    errorsJsonDoc (resErrors res) = [("errors", resErrors res)] ∧
    resErrors .ok = [] := by
  refine ⟨?_, rfl, rfl⟩
  cases cmd <;> cases res <;>
    simp [_main, hopen, afterPipeline_actions, reportTail, hflush, hcreate]

/-- Witness for C3: a failing check-header pipeline with two sub-errors, all
I/O succeeding. -/
theorem C3_witness :
    (⟨true, true, true, true⟩ : IoEnv).openOk = true ∧
    (Action.writeErrorsJson "errs.json"
        (errorsJsonDoc (resErrors (.error ⟨"boom", ["e1", "e2"]⟩))) ∈
      (_main (.checkHeader "t") (some "errs.json") ⟨true, true, true, true⟩
        (.error ⟨"boom", ["e1", "e2"]⟩)).actions ∧
      errorsJsonDoc (resErrors (.error ⟨"boom", ["e1", "e2"]⟩)) =
        [("errors", resErrors (.error ⟨"boom", ["e1", "e2"]⟩))] ∧
      resErrors .ok = []) :=
  ⟨rfl, C3_errors_report_written (.checkHeader "t") "errs.json"
    ⟨true, true, true, true⟩ (.error ⟨"boom", ["e1", "e2"]⟩) rfl rfl rfl⟩

/-- Claim C4: the exit code is 0 exactly when `_main` succeeded, and every
failure, whatever its cause, yields the single uniform exit code 1. -/
theorem C4_exit_code (cmd : Command) (ej : Option String) (env : IoEnv)
    (res : PipeResult) :
    (main cmd ej env res = 0 ↔ ((_main cmd ej env res).result).isOk = true) ∧
    main cmd ej env res =
      (if ((_main cmd ej env res).result).isOk = true then 0 else 1) := by
  cases h : (_main cmd ej env res).result <;> simp [main, h, MainResult.isOk]

/-- Claim C5 counterexample: a Parquet invocation calls the columnar writer
without the shared buffered stdout writer, so it is not true that all four
pipelines write through it. -/
theorem C5_counterexample :
    Action.callDumpEvents false none (64 * 1024) .Uncompressed false ∈
      (_main (.parquet "trace.dat" none false none (64 * 1024)) none
        ⟨true, true, true, true⟩ .ok).actions ∧
    ((_main (.parquet "trace.dat" none false none (64 * 1024)) none
        ⟨true, true, true, true⟩ .ok).actions.any
      Action.isPipelineCallWithoutOut) = true := by
  constructor
  · simp [_main, afterPipeline_actions, compressionOf]
  · rfl

/-- Claim C5 as amended: whenever the trace opens successfully, `_main` builds
the 1 MiB buffered writer over stdout, opens the trace, runs exactly one
pipeline call, then flushes the buffer exactly once, and everything after that
single flush is error reporting; the human-readable, check-header and metadata
pipelines receive the shared writer while the Parquet pipeline does not. -/
theorem C5_output_discipline (cmd : Command) (ej : Option String) (env : IoEnv)
    (res : PipeResult) (hopen : env.openOk = true) :
    (_main cmd ej env res).actions =
      [.mkBufWriter (1024 * 1024), .openTrace cmd.tracePath, pipeCall cmd,
        .flushOut] ++ reportTail ej env res ∧
    (∀ a ∈ reportTail ej env res, a.isReporting = true) ∧
    (pipeCall cmd).sharedOut = some (usesSharedWriter cmd) := by
  refine ⟨?_, reportTail_isReporting ej env res, ?_⟩
  · cases cmd <;>
      simp [_main, hopen, afterPipeline_actions, pipeCall, Command.tracePath]
  · cases cmd <;> rfl

/-- Witness for C5 at a concrete successful check-header invocation. -/
theorem C5_witness :
    (⟨true, true, true, true⟩ : IoEnv).openOk = true ∧
    ((_main (.checkHeader "t") none ⟨true, true, true, true⟩ .ok).actions =
      [.mkBufWriter (1024 * 1024), .openTrace (Command.checkHeader "t").tracePath,
        pipeCall (.checkHeader "t"), .flushOut] ++
        reportTail none ⟨true, true, true, true⟩ .ok ∧
      (∀ a ∈ reportTail none ⟨true, true, true, true⟩ .ok,
        a.isReporting = true) ∧
      (pipeCall (.checkHeader "t")).sharedOut =
        some (usesSharedWriter (.checkHeader "t"))) :=
  ⟨rfl, C5_output_discipline (.checkHeader "t") none ⟨true, true, true, true⟩
    .ok rfl⟩

/-- Claim C6: when uniqueness is not requested, the transform handed to the
columnar writer is the identity — it returns the input timestamp unchanged and
leaves the state alone. -/
theorem C6_identity_transform (prev ts : Timestamp) :
    make_ts false prev ts = (ts, prev) := rfl

/-- Claim C7: the compression scheme passed to the columnar writer is exactly
determined by the `--compression` option (lz4 to Lz4, snappy to Snappy, zstd to
Zstd, absent to Uncompressed), and the Parquet arm hands that scheme to
`dump_events`. -/
theorem C7_compression_mapping (trace : String) (events : Option (List String))
    (uniq : Bool) (chunk : Nat) (c : Option ParquetCompression)
    (ej : Option String) (env : IoEnv) (res : PipeResult)
    (hopen : env.openOk = true) :
    compressionOf (some .lz4) = .Lz4 ∧
    compressionOf (some .snappy) = .Snappy ∧
    compressionOf (some .zstd) = .Zstd none ∧
    compressionOf none = .Uncompressed ∧
    Action.callDumpEvents uniq events chunk (compressionOf c) false ∈
      (_main (.parquet trace events uniq c chunk) ej env res).actions := by
  refine ⟨rfl, rfl, rfl, rfl, ?_⟩
  simp [_main, hopen, afterPipeline_actions]

/-- Witness for C7 at a concrete Parquet invocation with `--compression zstd`. -/
theorem C7_witness :
    (⟨true, true, true, true⟩ : IoEnv).openOk = true ∧
    (compressionOf (some .lz4) = .Lz4 ∧
      compressionOf (some .snappy) = .Snappy ∧
      compressionOf (some .zstd) = .Zstd none ∧
      compressionOf none = .Uncompressed ∧
      Action.callDumpEvents true none 1024 (compressionOf (some .zstd)) false ∈
        (_main (.parquet "t" none true (some .zstd) 1024) none
          ⟨true, true, true, true⟩ .ok).actions) :=
  ⟨rfl, C7_compression_mapping "t" none true 1024 (some .zstd) none
    ⟨true, true, true, true⟩ .ok rfl⟩

/-- Claim C8: an absent `--chunk-size` resolves to the default of 65536 rows,
and that resolved value is the chunk size handed to `dump_events`. -/
theorem C8_chunk_size_default (trace : String) (events : Option (List String))
    (uniq : Bool) (c : Option ParquetCompression) (ej : Option String)
    (env : IoEnv) (res : PipeResult) (hopen : env.openOk = true) :
    resolveChunkSize none = 65536 ∧
    Action.callDumpEvents uniq events (resolveChunkSize none)
        (compressionOf c) false ∈
      (_main (.parquet trace events uniq c (resolveChunkSize none)) ej env
        res).actions := by
  refine ⟨rfl, ?_⟩
  simp [_main, hopen, afterPipeline_actions]

/-- Witness for C8 at a concrete Parquet invocation with no `--chunk-size`. -/
theorem C8_witness :
    (⟨true, true, true, true⟩ : IoEnv).openOk = true ∧
    (resolveChunkSize none = 65536 ∧
      Action.callDumpEvents false none (resolveChunkSize none)
          (compressionOf none) false ∈
        (_main (.parquet "t" none false none (resolveChunkSize none)) none
          ⟨true, true, true, true⟩ .ok).actions) :=
  ⟨rfl, C8_chunk_size_default "t" none false none none
    ⟨true, true, true, true⟩ .ok rfl⟩

end TraceDump
